import Mathlib

/-!
Shallow embedding of the resilience layer of the client service
(`client-service/src/index.ts`): the `CircuitBreaker` class, the
`retryWithBackoff` function, and the error-mapping of the two dispatch
route handlers (`POST /api/users/register`, `GET /api/users`).

Modelling conventions:
- Time (`Date.now()`) is an explicit `Nat` parameter `now`; one sample is
  used per `execute` call (the code samples the clock up to twice inside
  one call, microseconds apart).
- JavaScript numbers used for delays are modelled as `ℚ`; counters and
  timestamps as `Nat`.
- An asynchronous operation is modelled by the outcome of each of its
  physical attempts: a function from the attempt index to
  `Except ErrorInfo α`.
- `Math.random()` is an explicit draw function `rand : Nat → ℚ`, one draw
  per backoff computation, indexed by the attempt number.
-/

namespace Resilience

/-- The axios-style error `response` object: a downstream HTTP status and
body (`error.response.status`, `error.response.data`). The body is kept
abstract as a string. -/
structure ErrResponse where
  status : Nat
  data : String
deriving DecidableEq, Repr

/-- An error value as observed by the retry loop, the breaker, and the
route handlers: a `message` string and an optional downstream response. -/
structure ErrorInfo where
  message : String
  response : Option ErrResponse
deriving DecidableEq, Repr

/-- Substring test: models JavaScript `haystack.includes(needle)`. -/
def strContains (haystack needle : String) : Bool :=
  decide (List.IsInfix needle.toList haystack.toList)

deriving instance DecidableEq for Except

/-- The message of the synthetic breaker-open error
(`new Error('Circuit breaker is OPEN - fast failing')`). -/
def circuitOpenMessage : String := "Circuit breaker is OPEN - fast failing"

/-- The synthetic error thrown by `execute` when the breaker rejects. -/
def circuitOpenError : ErrorInfo :=
  { message := circuitOpenMessage, response := none }

/-- The substring tested by `error.message?.includes('Circuit breaker is OPEN')`. -/
def openMsgNeedle : String := "Circuit breaker is OPEN"

/-- Models the check `error.message?.includes('Circuit breaker is OPEN')`. -/
def isOpenSignal (e : ErrorInfo) : Bool :=
  strContains e.message openMsgNeedle

/-- Models the check `error.response?.status >= 400 && error.response?.status < 500`
(with optional chaining: absent response gives false). -/
def isClientError (e : ErrorInfo) : Bool :=
  match e.response with
  | some r => decide (400 ≤ r.status ∧ r.status < 500)
  | none => false

/-- The `CircuitState` enum. -/
inductive CircuitState where
  | CLOSED
  | OPEN
  | HALF_OPEN
deriving DecidableEq, Repr

/-- The constructor parameters of the `CircuitBreaker` class
(`failureThreshold`, `resetTimeout`, `halfOpenMaxAttempts`), immutable. -/
structure BreakerConfig where
  failureThreshold : Nat := 5
  resetTimeout : Nat := 60000
  halfOpenMaxAttempts : Nat := 3
deriving DecidableEq, Repr

/-- The mutable fields of the `CircuitBreaker` class, with their declared
initial values. -/
structure CircuitBreaker where
  state : CircuitState := .CLOSED
  failureCount : Nat := 0
  successCount : Nat := 0
  lastFailureTime : Nat := 0
  nextAttemptTime : Nat := 0
deriving DecidableEq, Repr

/-- A freshly constructed breaker (all fields at their declared initial
values). -/
def CircuitBreaker.init : CircuitBreaker := {}

/-- Models `CircuitBreaker.onSuccess`. -/
def CircuitBreaker.onSuccess (cfg : BreakerConfig) (cb : CircuitBreaker) :
    CircuitBreaker :=
  let cb := { cb with failureCount := 0 }
  if cb.state = .HALF_OPEN then
    let cb := { cb with successCount := cb.successCount + 1 }
    if cfg.halfOpenMaxAttempts ≤ cb.successCount then
      { cb with state := .CLOSED, successCount := 0 }
    else cb
  else cb

/-- Models `CircuitBreaker.onFailure`; `now` is the `Date.now()` sample. -/
def CircuitBreaker.onFailure (cfg : BreakerConfig) (now : Nat)
    (cb : CircuitBreaker) : CircuitBreaker :=
  let cb := { cb with failureCount := cb.failureCount + 1,
                      lastFailureTime := now }
  if cb.state = .HALF_OPEN then
    { cb with state := .OPEN, nextAttemptTime := now + cfg.resetTimeout,
              successCount := 0 }
  else if cfg.failureThreshold ≤ cb.failureCount then
    { cb with state := .OPEN, nextAttemptTime := now + cfg.resetTimeout }
  else cb

/-- Models `CircuitBreaker.reset`. -/
def CircuitBreaker.reset (cb : CircuitBreaker) : CircuitBreaker :=
  { cb with state := .CLOSED, failureCount := 0, successCount := 0,
            nextAttemptTime := 0 }

/-- The status record returned by `CircuitBreaker.getState` (the
`nextAttemptTime` ISO string, present only while OPEN, is modelled as the
raw timestamp). -/
structure BreakerStatus where
  state : CircuitState
  failureCount : Nat
  successCount : Nat
  nextAttemptTime : Option Nat
deriving DecidableEq, Repr

/-- Models `CircuitBreaker.getState`. -/
def CircuitBreaker.getState (cb : CircuitBreaker) : BreakerStatus :=
  { state := cb.state, failureCount := cb.failureCount,
    successCount := cb.successCount,
    nextAttemptTime := if cb.state = .OPEN then some cb.nextAttemptTime else none }

/-- The outcome of one `execute` call: the breaker after the call, the
value returned or error thrown, and whether the wrapped operation was
invoked at all. -/
structure ExecOutcome (α : Type) where
  breaker : CircuitBreaker
  result : Except ErrorInfo α
  invoked : Bool
deriving DecidableEq, Repr

/-- The try/catch body of `execute`: invoke the operation, record the
outcome via `onSuccess`/`onFailure`, and return the value or rethrow the
error unchanged. -/
def CircuitBreaker.runOp (cfg : BreakerConfig) (now : Nat)
    (cb : CircuitBreaker) (opResult : Except ErrorInfo α) : ExecOutcome α :=
  match opResult with
  | .ok v => ⟨cb.onSuccess cfg, .ok v, true⟩
  | .error e => ⟨cb.onFailure cfg now, .error e, true⟩

/-- Models `CircuitBreaker.execute`: while OPEN, either reject fast
(when `now < nextAttemptTime`) or transition to HALF_OPEN with
`successCount = 0` and let the probe run. -/
def CircuitBreaker.execute (cfg : BreakerConfig) (now : Nat)
    (cb : CircuitBreaker) (opResult : Except ErrorInfo α) : ExecOutcome α :=
  if cb.state = .OPEN then
    if cb.nextAttemptTime ≤ now then
      CircuitBreaker.runOp cfg now
        { cb with state := .HALF_OPEN, successCount := 0 } opResult
    else
      ⟨cb, .error circuitOpenError, false⟩
  else
    CircuitBreaker.runOp cfg now cb opResult

/-- Iterate `execute` with a fixed per-call operation result `r`,
starting from `cb`: the breaker after `n` consecutive calls. -/
def execTrace (cfg : BreakerConfig) (now : Nat) (r : Except ErrorInfo α)
    (cb : CircuitBreaker) : Nat → CircuitBreaker
  | 0 => cb
  | n + 1 => (CircuitBreaker.execute cfg now (execTrace cfg now r cb n) r).breaker

/-- The `RetryConfig` interface; delays are JavaScript numbers, modelled
as `ℚ`. -/
structure RetryConfig where
  maxRetries : Nat
  initialDelay : ℚ
  maxDelay : ℚ
  backoffMultiplier : ℚ
  jitterFactor : ℚ
deriving DecidableEq, Repr

/-- The default `RetryConfig` value of `retryWithBackoff`. -/
def defaultRetryConfig : RetryConfig :=
  { maxRetries := 3, initialDelay := 1000, maxDelay := 10000,
    backoffMultiplier := 2, jitterFactor := 3/10 }

/-- Models `Math.min(config.initialDelay * Math.pow(config.backoffMultiplier, attempt), config.maxDelay)`. -/
def baseDelay (config : RetryConfig) (attempt : Nat) : ℚ :=
  min (config.initialDelay * config.backoffMultiplier ^ attempt) config.maxDelay

/-- The backoff delay slept before the next attempt: `r` is the
`Math.random()` draw; jitter is `baseDelay * jitterFactor * (r * 2 - 1)`
and the sum is clamped below by 0. -/
def jitteredDelay (config : RetryConfig) (attempt : Nat) (r : ℚ) : ℚ :=
  let b := baseDelay config attempt
  let jitter := b * config.jitterFactor * (r * 2 - 1)
  max 0 (b + jitter)

/-- The observable outcome of one `retryWithBackoff` call: the value
returned or error thrown, the number of physical attempts made, and the
sequence of delays slept between attempts. -/
structure RetryOutcome (α : Type) where
  result : Except ErrorInfo α
  attempts : Nat
  delays : List ℚ
deriving DecidableEq, Repr

/-- The retry loop body, from attempt index `attempt` with `remaining`
loop iterations still allowed after this one (the source iterates
`attempt` from 0 to `config.maxRetries` and retries only while
`attempt < config.maxRetries`; here `remaining = config.maxRetries - attempt`
carries that bound). On any error the loop first rethrows client errors
(status in [400,500)) and breaker-open messages; when the last iteration
fails, `lastError` is rethrown. -/
def retryGo (config : RetryConfig) (op : Nat → Except ErrorInfo α)
    (rand : Nat → ℚ) : Nat → Nat → RetryOutcome α
  | attempt, remaining =>
    match op attempt with
    | .ok v => { result := .ok v, attempts := 1, delays := [] }
    | .error e =>
      if isClientError e then
        { result := .error e, attempts := 1, delays := [] }
      else if isOpenSignal e then
        { result := .error e, attempts := 1, delays := [] }
      else
        match remaining with
        | 0 => { result := .error e, attempts := 1, delays := [] }
        | r + 1 =>
          let d := jitteredDelay config attempt (rand attempt)
          let rest := retryGo config op rand (attempt + 1) r
          { result := rest.result, attempts := rest.attempts + 1,
            delays := d :: rest.delays }

/-- Models `retryWithBackoff(operation, config)`. -/
def retryWithBackoff (config : RetryConfig) (op : Nat → Except ErrorInfo α)
    (rand : Nat → ℚ) : RetryOutcome α :=
  retryGo config op rand 0 config.maxRetries

/-- The composition used by both routes:
`circuitBreaker.execute(() => retryWithBackoff(() => axios...))`. -/
def runPipeline (cfg : BreakerConfig) (rcfg : RetryConfig) (now : Nat)
    (cb : CircuitBreaker) (op : Nat → Except ErrorInfo α) (rand : Nat → ℚ) :
    ExecOutcome α :=
  CircuitBreaker.execute cfg now cb (retryWithBackoff rcfg op rand).result

/-- A route response body, tagged by which branch of the handler produced
it. -/
inductive RespBody where
  | payload (v : String)
  | serviceUnavailable (msg : String) (circuitState : BreakerStatus)
  | downstreamBody (d : String)
  | failedRegister (details : String)
  | failedFetch (details : String)
deriving DecidableEq, Repr

/-- An HTTP response of the dispatch facade. -/
structure HttpResponse where
  status : Nat
  body : RespBody
deriving DecidableEq, Repr

/-- Models the `POST /api/users/register` handler: run the pipeline; on
success respond 201 with the result; on a breaker-open message respond
503 with the breaker status attached; on an error carrying a downstream
response forward its status and body; otherwise respond 500. -/
def registerHandler (cfg : BreakerConfig) (rcfg : RetryConfig) (now : Nat)
    (cb : CircuitBreaker) (op : Nat → Except ErrorInfo String)
    (rand : Nat → ℚ) : CircuitBreaker × HttpResponse :=
  let out := runPipeline cfg rcfg now cb op rand
  match out.result with
  | .ok v => (out.breaker, ⟨201, .payload v⟩)
  | .error e =>
    if isOpenSignal e then
      (out.breaker,
       ⟨503, .serviceUnavailable
          "Service temporarily unavailable - circuit breaker is open"
          out.breaker.getState⟩)
    else
      match e.response with
      | some r => (out.breaker, ⟨r.status, .downstreamBody r.data⟩)
      | none => (out.breaker, ⟨500, .failedRegister e.message⟩)

/-- Models the `GET /api/users` handler: run the pipeline; on success
respond 200 with the result; on a breaker-open message respond 503 with
the breaker status attached; on any other error respond 500 (this handler
has no branch forwarding `error.response`). -/
def usersHandler (cfg : BreakerConfig) (rcfg : RetryConfig) (now : Nat)
    (cb : CircuitBreaker) (op : Nat → Except ErrorInfo String)
    (rand : Nat → ℚ) : CircuitBreaker × HttpResponse :=
  let out := runPipeline cfg rcfg now cb op rand
  match out.result with
  | .ok v => (out.breaker, ⟨200, .payload v⟩)
  | .error e =>
    if isOpenSignal e then
      (out.breaker,
       ⟨503, .serviceUnavailable "Service temporarily unavailable"
          out.breaker.getState⟩)
    else
      (out.breaker, ⟨500, .failedFetch e.message⟩)

/-! Generic helper lemmas about the breaker step functions. -/

/-- When the breaker is not OPEN, `execute` just runs the operation. -/
lemma execute_not_open (cfg : BreakerConfig) (now : Nat) (cb : CircuitBreaker)
    (r : Except ErrorInfo α) (h : ¬ cb.state = .OPEN) :
    CircuitBreaker.execute cfg now cb r = CircuitBreaker.runOp cfg now cb r := by
  simp [CircuitBreaker.execute, h]

/-- When the breaker is OPEN and the cool-down has elapsed, `execute` runs
the operation on the HALF_OPEN probe state. -/
lemma execute_probe (cfg : BreakerConfig) (now : Nat) (cb : CircuitBreaker)
    (r : Except ErrorInfo α) (h : cb.state = .OPEN) (h2 : cb.nextAttemptTime ≤ now) :
    CircuitBreaker.execute cfg now cb r =
      CircuitBreaker.runOp cfg now
        { cb with state := .HALF_OPEN, successCount := 0 } r := by
  simp [CircuitBreaker.execute, h, h2]

/-- `onFailure` outside HALF_OPEN, below the threshold: only the counter
and the timestamp move. -/
lemma onFailure_below (cfg : BreakerConfig) (now : Nat) (cb : CircuitBreaker)
    (h : ¬ cb.state = .HALF_OPEN) (h2 : cb.failureCount + 1 < cfg.failureThreshold) :
    cb.onFailure cfg now =
      { cb with failureCount := cb.failureCount + 1, lastFailureTime := now } := by
  simp [CircuitBreaker.onFailure, h, Nat.not_le.mpr h2]

/-- `onFailure` outside HALF_OPEN, at or above the threshold: the breaker
trips OPEN. -/
lemma onFailure_trip (cfg : BreakerConfig) (now : Nat) (cb : CircuitBreaker)
    (h : ¬ cb.state = .HALF_OPEN) (h2 : cfg.failureThreshold ≤ cb.failureCount + 1) :
    cb.onFailure cfg now =
      { cb with state := .OPEN, failureCount := cb.failureCount + 1,
                lastFailureTime := now,
                nextAttemptTime := now + cfg.resetTimeout } := by
  simp [CircuitBreaker.onFailure, h, h2]

/-- `onFailure` in HALF_OPEN: reopen with a fresh cool-down. -/
lemma onFailure_halfopen (cfg : BreakerConfig) (now : Nat) (cb : CircuitBreaker)
    (h : cb.state = .HALF_OPEN) :
    cb.onFailure cfg now =
      { cb with state := .OPEN, failureCount := cb.failureCount + 1,
                lastFailureTime := now, successCount := 0,
                nextAttemptTime := now + cfg.resetTimeout } := by
  simp [CircuitBreaker.onFailure, h]

/-- `onSuccess` outside HALF_OPEN: only the failure counter resets. -/
lemma onSuccess_not_halfopen (cfg : BreakerConfig) (cb : CircuitBreaker)
    (h : ¬ cb.state = .HALF_OPEN) :
    cb.onSuccess cfg = { cb with failureCount := 0 } := by
  simp [CircuitBreaker.onSuccess, h]

/-- `onSuccess` in HALF_OPEN, below the close threshold: the success
counter ticks. -/
lemma onSuccess_tick (cfg : BreakerConfig) (cb : CircuitBreaker)
    (h : cb.state = .HALF_OPEN) (h2 : cb.successCount + 1 < cfg.halfOpenMaxAttempts) :
    cb.onSuccess cfg =
      { cb with failureCount := 0, successCount := cb.successCount + 1 } := by
  simp [CircuitBreaker.onSuccess, h, Nat.not_le.mpr h2]

/-- `onSuccess` in HALF_OPEN, reaching the close threshold: the breaker
closes with both counters zeroed. -/
lemma onSuccess_close (cfg : BreakerConfig) (cb : CircuitBreaker)
    (h : cb.state = .HALF_OPEN) (h2 : cfg.halfOpenMaxAttempts ≤ cb.successCount + 1) :
    cb.onSuccess cfg =
      { cb with state := .CLOSED, failureCount := 0, successCount := 0 } := by
  simp [CircuitBreaker.onSuccess, h, h2]

/-- C2: while OPEN before the cool-down expires, `execute` rejects with
the synthetic circuit-open error, never invokes the operation, and leaves
the whole breaker record unchanged. -/
theorem C2_open_fast_fail (cfg : BreakerConfig) (now : Nat) (cb : CircuitBreaker)
    (r : Except ErrorInfo α) (h1 : cb.state = .OPEN) (h2 : now < cb.nextAttemptTime) :
    CircuitBreaker.execute cfg now cb r = ⟨cb, .error circuitOpenError, false⟩ := by
  simp [CircuitBreaker.execute, h1, Nat.not_le.mpr h2]

/-- Witness for C2 at a concrete OPEN breaker before its cool-down. -/
theorem C2_open_fast_fail_witness :
    CircuitBreaker.execute {} 0 ⟨.OPEN, 5, 0, 3, 60003⟩ (.ok ()) =
      ⟨⟨.OPEN, 5, 0, 3, 60003⟩, .error circuitOpenError, false⟩ :=
  C2_open_fast_fail {} 0 ⟨.OPEN, 5, 0, 3, 60003⟩ (.ok ()) rfl (by decide)

/-- C6 counterexample: `reset` leaves `lastFailureTime` untouched, so a
breaker that recorded a failure at time 7 still shows 7 after the
administrative reset, contradicting "zeroes every stored timestamp". -/
theorem C6_reset_counterexample :
    (CircuitBreaker.reset ⟨.OPEN, 2, 1, 7, 99⟩).lastFailureTime = 7 ∧
      (7 : Nat) ≠ 0 := by
  decide

/-- C6 amended: `reset`, in any state, forces CLOSED and zeroes
`failureCount`, `successCount` and `nextAttemptTime`, but leaves
`lastFailureTime` unchanged. -/
theorem C6_reset_amended (cb : CircuitBreaker) :
    CircuitBreaker.reset cb = ⟨.CLOSED, 0, 0, cb.lastFailureTime, 0⟩ :=
  rfl

/-- In every branch of `onFailure`, the failure counter goes up by one and
the last-failure timestamp becomes `now`. -/
lemma onFailure_counts (cfg : BreakerConfig) (now : Nat) (cb : CircuitBreaker) :
    (cb.onFailure cfg now).failureCount = cb.failureCount + 1 ∧
    (cb.onFailure cfg now).lastFailureTime = now := by
  unfold CircuitBreaker.onFailure
  dsimp only
  split
  · exact ⟨rfl, rfl⟩
  · split
    · exact ⟨rfl, rfl⟩
    · exact ⟨rfl, rfl⟩

/-- C9: whenever `execute` actually invokes the operation and the
operation fails, the failure counter goes up by exactly one and the
last-failure timestamp becomes `now`, in every state; in particular a
failed HALF_OPEN probe reopens the circuit with the counter one greater. -/
theorem C9_admitted_failure_increment (cfg : BreakerConfig) (now : Nat)
    (cb : CircuitBreaker) (e : ErrorInfo)
    (h : (CircuitBreaker.execute cfg now cb (.error (α := Unit) e)).invoked = true) :
    ((CircuitBreaker.execute cfg now cb (.error (α := Unit) e)).breaker.failureCount
        = cb.failureCount + 1) ∧
    ((CircuitBreaker.execute cfg now cb (.error (α := Unit) e)).breaker.lastFailureTime
        = now) ∧
    (cb.state = .HALF_OPEN →
      (CircuitBreaker.execute cfg now cb (.error (α := Unit) e)).breaker.state = .OPEN) := by
  by_cases hop : cb.state = .OPEN
  · by_cases ht : cb.nextAttemptTime ≤ now
    · rw [execute_probe cfg now cb _ hop ht]
      simp only [CircuitBreaker.runOp]
      refine ⟨?_, ?_, ?_⟩
      · simpa using
          (onFailure_counts cfg now { cb with state := .HALF_OPEN, successCount := 0 }).1
      · simpa using
          (onFailure_counts cfg now { cb with state := .HALF_OPEN, successCount := 0 }).2
      · intro hh
        rw [hop] at hh
        cases hh
    · rw [C2_open_fast_fail cfg now cb (.error (α := Unit) e) hop (Nat.not_le.mp ht)] at h
      simp at h
  · rw [execute_not_open cfg now cb _ hop]
    simp only [CircuitBreaker.runOp]
    refine ⟨(onFailure_counts cfg now cb).1, (onFailure_counts cfg now cb).2, ?_⟩
    intro hh
    simp [onFailure_halfopen cfg now cb hh]

/-- Witness for C9: a CLOSED breaker admits the call, and the failing
operation bumps the counter and stamps the time. -/
theorem C9_admitted_failure_increment_witness :
    ((CircuitBreaker.execute {} 42 .init
        (.error (α := Unit) ⟨"boom", none⟩)).breaker.failureCount = 0 + 1) ∧
    ((CircuitBreaker.execute {} 42 .init
        (.error (α := Unit) ⟨"boom", none⟩)).breaker.lastFailureTime = 42) ∧
    (CircuitBreaker.init.state = .HALF_OPEN →
      (CircuitBreaker.execute {} 42 .init
        (.error (α := Unit) ⟨"boom", none⟩)).breaker.state = .OPEN) :=
  C9_admitted_failure_increment {} 42 .init ⟨"boom", none⟩ (by decide)

/-- Invariant of the consecutive-failure trace from the initial breaker:
below the threshold it stays CLOSED with `failureCount` equal to the
number of failures so far. -/
lemma failTrace_closed (cfg : BreakerConfig) (now : Nat) (e : ErrorInfo) :
    ∀ k, k < cfg.failureThreshold →
      (execTrace cfg now (.error (α := Unit) e) .init k).state = .CLOSED ∧
      (execTrace cfg now (.error (α := Unit) e) .init k).failureCount = k := by
  intro k
  induction k with
  | zero => intro _; exact ⟨rfl, rfl⟩
  | succ n ih =>
    intro hk
    obtain ⟨hs, hf⟩ := ih (Nat.lt_of_succ_lt hk)
    set cbn := execTrace cfg now (.error (α := Unit) e) .init n with hcbn
    have hnotopen : ¬ cbn.state = .OPEN := by rw [hs]; intro hh; cases hh
    have hnothalf : ¬ cbn.state = .HALF_OPEN := by rw [hs]; intro hh; cases hh
    have hstep : execTrace cfg now (.error (α := Unit) e) .init (n + 1) =
        (CircuitBreaker.execute cfg now cbn (.error (α := Unit) e)).breaker := rfl
    rw [hstep, execute_not_open cfg now cbn _ hnotopen]
    simp only [CircuitBreaker.runOp]
    rw [onFailure_below cfg now cbn hnothalf (by omega)]
    exact ⟨hs, by simp [hf]⟩

/-- C1: while CLOSED, a failure increments `failureCount` by one, trips
the breaker OPEN with `nextAttemptTime = now + resetTimeout` exactly when
the counter reaches the threshold, and otherwise stays CLOSED; a success
while CLOSED resets the counter and stays CLOSED. From the initial
breaker, `failureThreshold` consecutive failures yield OPEN, while
`failureThreshold - 1` failures followed by one success yield CLOSED with
`failureCount = 0`. -/
theorem C1_closed_behavior (cfg : BreakerConfig) (h1 : 1 ≤ cfg.failureThreshold) :
    (∀ (now : Nat) (cb : CircuitBreaker) (e : ErrorInfo), cb.state = .CLOSED →
      ((CircuitBreaker.execute cfg now cb (.error (α := Unit) e)).breaker.failureCount
          = cb.failureCount + 1) ∧
      (cfg.failureThreshold ≤ cb.failureCount + 1 →
        (CircuitBreaker.execute cfg now cb (.error (α := Unit) e)).breaker.state = .OPEN ∧
        (CircuitBreaker.execute cfg now cb (.error (α := Unit) e)).breaker.nextAttemptTime
          = now + cfg.resetTimeout) ∧
      (cb.failureCount + 1 < cfg.failureThreshold →
        (CircuitBreaker.execute cfg now cb (.error (α := Unit) e)).breaker.state
          = .CLOSED)) ∧
    (∀ (now : Nat) (cb : CircuitBreaker), cb.state = .CLOSED →
      ((CircuitBreaker.execute cfg now cb
          (Except.ok (ε := ErrorInfo) ())).breaker.failureCount = 0) ∧
      ((CircuitBreaker.execute cfg now cb
          (Except.ok (ε := ErrorInfo) ())).breaker.state = .CLOSED)) ∧
    (∀ (now : Nat) (e : ErrorInfo),
      (execTrace cfg now (.error (α := Unit) e) .init cfg.failureThreshold).state
        = .OPEN ∧
      (execTrace cfg now (.error (α := Unit) e) .init cfg.failureThreshold).nextAttemptTime
        = now + cfg.resetTimeout) ∧
    (∀ (now : Nat) (e : ErrorInfo),
      ((CircuitBreaker.execute cfg now
          (execTrace cfg now (.error (α := Unit) e) .init (cfg.failureThreshold - 1))
          (Except.ok (ε := ErrorInfo) ())).breaker.state = .CLOSED) ∧
      ((CircuitBreaker.execute cfg now
          (execTrace cfg now (.error (α := Unit) e) .init (cfg.failureThreshold - 1))
          (Except.ok (ε := ErrorInfo) ())).breaker.failureCount = 0)) := by
  refine ⟨?_, ?_, ?_, ?_⟩
  · intro now cb e hcb
    have hnotopen : ¬ cb.state = .OPEN := by rw [hcb]; intro hh; cases hh
    have hnothalf : ¬ cb.state = .HALF_OPEN := by rw [hcb]; intro hh; cases hh
    rw [execute_not_open cfg now cb _ hnotopen]
    simp only [CircuitBreaker.runOp]
    refine ⟨(onFailure_counts cfg now cb).1, ?_, ?_⟩
    · intro hth
      rw [onFailure_trip cfg now cb hnothalf hth]
      exact ⟨rfl, rfl⟩
    · intro hth
      rw [onFailure_below cfg now cb hnothalf hth]
      exact hcb
  · intro now cb hcb
    have hnotopen : ¬ cb.state = .OPEN := by rw [hcb]; intro hh; cases hh
    have hnothalf : ¬ cb.state = .HALF_OPEN := by rw [hcb]; intro hh; cases hh
    rw [execute_not_open cfg now cb _ hnotopen]
    simp only [CircuitBreaker.runOp]
    rw [onSuccess_not_halfopen cfg cb hnothalf]
    exact ⟨rfl, hcb⟩
  · intro now e
    obtain ⟨m, hm⟩ : ∃ m, cfg.failureThreshold = m + 1 := ⟨cfg.failureThreshold - 1, by omega⟩
    obtain ⟨hs, hf⟩ := failTrace_closed cfg now e m (by omega)
    set cbm := execTrace cfg now (.error (α := Unit) e) .init m with hcbm
    have hnotopen : ¬ cbm.state = .OPEN := by rw [hs]; intro hh; cases hh
    have hnothalf : ¬ cbm.state = .HALF_OPEN := by rw [hs]; intro hh; cases hh
    have hstep : execTrace cfg now (.error (α := Unit) e) .init cfg.failureThreshold =
        (CircuitBreaker.execute cfg now cbm (.error (α := Unit) e)).breaker := by
      rw [hm]; rfl
    rw [hstep, execute_not_open cfg now cbm _ hnotopen]
    simp only [CircuitBreaker.runOp]
    rw [onFailure_trip cfg now cbm hnothalf (by omega)]
    exact ⟨rfl, rfl⟩
  · intro now e
    obtain ⟨hs, hf⟩ := failTrace_closed cfg now e (cfg.failureThreshold - 1) (by omega)
    set cbm := execTrace cfg now (.error (α := Unit) e) .init (cfg.failureThreshold - 1)
      with hcbm
    have hnotopen : ¬ cbm.state = .OPEN := by rw [hs]; intro hh; cases hh
    have hnothalf : ¬ cbm.state = .HALF_OPEN := by rw [hs]; intro hh; cases hh
    rw [execute_not_open cfg now cbm _ hnotopen]
    simp only [CircuitBreaker.runOp]
    rw [onSuccess_not_halfopen cfg cbm hnothalf]
    exact ⟨hs, rfl⟩

/-- Witness for C1 at the default configuration: 5 consecutive failures
from the initial breaker at time 7 leave it OPEN with cool-down until
60007. -/
theorem C1_closed_behavior_witness :
    (execTrace {} 7 (.error (α := Unit) ⟨"boom", none⟩) .init 5).state
      = CircuitState.OPEN ∧
    (execTrace {} 7 (.error (α := Unit) ⟨"boom", none⟩) .init 5).nextAttemptTime
      = 7 + 60000 :=
  (C1_closed_behavior {} (by decide)).2.2.1 7 ⟨"boom", none⟩

/-- Unrolling a trace from the front: `k + 1` steps from `cb` are one
step from `cb` followed by `k` steps from the resulting breaker. -/
lemma execTrace_shift (cfg : BreakerConfig) (now : Nat) (r : Except ErrorInfo α)
    (cb : CircuitBreaker) :
    ∀ k, execTrace cfg now r cb (k + 1) =
      execTrace cfg now r ((CircuitBreaker.execute cfg now cb r).breaker) k := by
  intro k
  induction k with
  | zero => rfl
  | succ n ih =>
    have hstep : execTrace cfg now r cb (n + 2) =
        (CircuitBreaker.execute cfg now (execTrace cfg now r cb (n + 1)) r).breaker := rfl
    rw [hstep, ih]
    rfl

/-- Invariant of a consecutive-success run from a HALF_OPEN breaker with
a clean failure counter: while below `halfOpenMaxAttempts`, the breaker
stays HALF_OPEN and `successCount` accumulates. -/
lemma halfOpenRun (cfg : BreakerConfig) (now : Nat) (cb : CircuitBreaker)
    (h : cb.state = .HALF_OPEN) (hfc : cb.failureCount = 0) :
    ∀ k, cb.successCount + k < cfg.halfOpenMaxAttempts →
      (execTrace cfg now (Except.ok (ε := ErrorInfo) ()) cb k).state = .HALF_OPEN ∧
      (execTrace cfg now (Except.ok (ε := ErrorInfo) ()) cb k).successCount
        = cb.successCount + k ∧
      (execTrace cfg now (Except.ok (ε := ErrorInfo) ()) cb k).failureCount = 0 := by
  intro k
  induction k with
  | zero => intro _; exact ⟨h, rfl, hfc⟩
  | succ n ih =>
    intro hk
    obtain ⟨hs, hsc, hf⟩ := ih (by omega)
    set cbn := execTrace cfg now (Except.ok (ε := ErrorInfo) ()) cb n with hcbn
    have hnotopen : ¬ cbn.state = .OPEN := by rw [hs]; intro hh; cases hh
    have hstep : execTrace cfg now (Except.ok (ε := ErrorInfo) ()) cb (n + 1) =
        (CircuitBreaker.execute cfg now cbn (Except.ok (ε := ErrorInfo) ())).breaker := rfl
    rw [hstep, execute_not_open cfg now cbn _ hnotopen]
    simp only [CircuitBreaker.runOp]
    rw [onSuccess_tick cfg cbn hs (by omega)]
    refine ⟨hs, ?_, rfl⟩
    show cbn.successCount + 1 = cb.successCount + (n + 1)
    omega

/-- C3: an OPEN breaker whose cool-down has elapsed admits the probe;
while HALF_OPEN each success ticks `successCount` until the
`halfOpenMaxAttempts`-th success closes the breaker with both counters
zeroed; a single HALF_OPEN failure reopens with a fresh cool-down and
zeroed `successCount`; and the whole probe run from OPEN behaves
accordingly. -/
theorem C3_halfopen_behavior (cfg : BreakerConfig) (h1 : 1 ≤ cfg.halfOpenMaxAttempts) :
    (∀ (now : Nat) (cb : CircuitBreaker) (r : Except ErrorInfo Unit),
      cb.state = .OPEN → cb.nextAttemptTime ≤ now →
      (CircuitBreaker.execute cfg now cb r).invoked = true) ∧
    (∀ (now : Nat) (cb : CircuitBreaker), cb.state = .HALF_OPEN →
      (cb.successCount + 1 < cfg.halfOpenMaxAttempts →
        ((CircuitBreaker.execute cfg now cb
            (Except.ok (ε := ErrorInfo) ())).breaker.state = .HALF_OPEN) ∧
        ((CircuitBreaker.execute cfg now cb
            (Except.ok (ε := ErrorInfo) ())).breaker.successCount
          = cb.successCount + 1)) ∧
      (cfg.halfOpenMaxAttempts ≤ cb.successCount + 1 →
        ((CircuitBreaker.execute cfg now cb
            (Except.ok (ε := ErrorInfo) ())).breaker.state = .CLOSED) ∧
        ((CircuitBreaker.execute cfg now cb
            (Except.ok (ε := ErrorInfo) ())).breaker.successCount = 0) ∧
        ((CircuitBreaker.execute cfg now cb
            (Except.ok (ε := ErrorInfo) ())).breaker.failureCount = 0))) ∧
    (∀ (now : Nat) (cb : CircuitBreaker) (e : ErrorInfo), cb.state = .HALF_OPEN →
      ((CircuitBreaker.execute cfg now cb (.error (α := Unit) e)).breaker.state = .OPEN) ∧
      ((CircuitBreaker.execute cfg now cb (.error (α := Unit) e)).breaker.nextAttemptTime
        = now + cfg.resetTimeout) ∧
      ((CircuitBreaker.execute cfg now cb
          (.error (α := Unit) e)).breaker.successCount = 0)) ∧
    (∀ (now : Nat) (cb : CircuitBreaker), cb.state = .OPEN → cb.nextAttemptTime ≤ now →
      (∀ k, 1 ≤ k → k < cfg.halfOpenMaxAttempts →
        ((execTrace cfg now (Except.ok (ε := ErrorInfo) ()) cb k).state = .HALF_OPEN) ∧
        ((execTrace cfg now (Except.ok (ε := ErrorInfo) ()) cb k).successCount = k)) ∧
      ((execTrace cfg now (Except.ok (ε := ErrorInfo) ()) cb
          cfg.halfOpenMaxAttempts).state = .CLOSED) ∧
      ((execTrace cfg now (Except.ok (ε := ErrorInfo) ()) cb
          cfg.halfOpenMaxAttempts).successCount = 0) ∧
      ((execTrace cfg now (Except.ok (ε := ErrorInfo) ()) cb
          cfg.halfOpenMaxAttempts).failureCount = 0)) := by
  refine ⟨?_, ?_, ?_, ?_⟩
  · intro now cb r hcb ht
    rw [execute_probe cfg now cb r hcb ht]
    cases r <;> rfl
  · intro now cb hcb
    have hnotopen : ¬ cb.state = .OPEN := by rw [hcb]; intro hh; cases hh
    constructor
    · intro h2
      rw [execute_not_open cfg now cb _ hnotopen]
      simp only [CircuitBreaker.runOp]
      rw [onSuccess_tick cfg cb hcb h2]
      exact ⟨hcb, rfl⟩
    · intro h2
      rw [execute_not_open cfg now cb _ hnotopen]
      simp only [CircuitBreaker.runOp]
      rw [onSuccess_close cfg cb hcb h2]
      exact ⟨rfl, rfl, rfl⟩
  · intro now cb e hcb
    have hnotopen : ¬ cb.state = .OPEN := by rw [hcb]; intro hh; cases hh
    rw [execute_not_open cfg now cb _ hnotopen]
    simp only [CircuitBreaker.runOp]
    rw [onFailure_halfopen cfg now cb hcb]
    exact ⟨rfl, rfl, rfl⟩
  · intro now cb hcb ht
    by_cases hmax1 : cfg.halfOpenMaxAttempts = 1
    · refine ⟨?_, ?_⟩
      · intro k hk1 hk2
        exfalso
        omega
      · rw [hmax1]
        have h1t : execTrace cfg now (Except.ok (ε := ErrorInfo) ()) cb 1 =
            (CircuitBreaker.execute cfg now cb (Except.ok (ε := ErrorInfo) ())).breaker := rfl
        rw [h1t, execute_probe cfg now cb _ hcb ht]
        simp only [CircuitBreaker.runOp]
        rw [onSuccess_close cfg { cb with state := .HALF_OPEN, successCount := 0 } rfl
          (by show cfg.halfOpenMaxAttempts ≤ 0 + 1; omega)]
        exact ⟨rfl, rfl, rfl⟩
    · have hcb1 : (CircuitBreaker.execute cfg now cb
          (Except.ok (ε := ErrorInfo) ())).breaker =
          ⟨.HALF_OPEN, 0, 1, cb.lastFailureTime, cb.nextAttemptTime⟩ := by
        rw [execute_probe cfg now cb _ hcb ht]
        simp only [CircuitBreaker.runOp]
        rw [onSuccess_tick cfg { cb with state := .HALF_OPEN, successCount := 0 } rfl
          (by show 0 + 1 < cfg.halfOpenMaxAttempts; omega)]
      refine ⟨?_, ?_⟩
      · intro k hk1 hk2
        obtain ⟨j, hj⟩ : ∃ j, k = j + 1 := ⟨k - 1, by omega⟩
        rw [hj, execTrace_shift, hcb1]
        obtain ⟨ha, hb, hc⟩ := halfOpenRun cfg now
          ⟨.HALF_OPEN, 0, 1, cb.lastFailureTime, cb.nextAttemptTime⟩ rfl rfl j
          (by show 1 + j < cfg.halfOpenMaxAttempts; omega)
        exact ⟨ha, by rw [hb]; show 1 + j = j + 1; omega⟩
      · obtain ⟨m2, hm2⟩ : ∃ m2, cfg.halfOpenMaxAttempts = m2 + 2 :=
          ⟨cfg.halfOpenMaxAttempts - 2, by omega⟩
        rw [hm2]
        rw [show m2 + 2 = (m2 + 1) + 1 from rfl, execTrace_shift, hcb1]
        obtain ⟨ha, hb, hc⟩ := halfOpenRun cfg now
          ⟨.HALF_OPEN, 0, 1, cb.lastFailureTime, cb.nextAttemptTime⟩ rfl rfl m2
          (by show 1 + m2 < cfg.halfOpenMaxAttempts; omega)
        set cbp := execTrace cfg now (Except.ok (ε := ErrorInfo) ())
          ⟨.HALF_OPEN, 0, 1, cb.lastFailureTime, cb.nextAttemptTime⟩ m2 with hcbp
        have hsc : cbp.successCount = 1 + m2 := by simpa using hb
        have hnotopen : ¬ cbp.state = .OPEN := by rw [ha]; intro hh; cases hh
        have hstep : execTrace cfg now (Except.ok (ε := ErrorInfo) ())
            ⟨.HALF_OPEN, 0, 1, cb.lastFailureTime, cb.nextAttemptTime⟩ (m2 + 1) =
            (CircuitBreaker.execute cfg now cbp (Except.ok (ε := ErrorInfo) ())).breaker :=
          rfl
        rw [hstep, execute_not_open cfg now cbp _ hnotopen]
        simp only [CircuitBreaker.runOp]
        rw [onSuccess_close cfg cbp ha (by omega)]
        exact ⟨rfl, rfl, rfl⟩

/-- Witness for C3 at the default configuration: an OPEN breaker past its
cool-down, given 3 consecutive successes, ends CLOSED with both counters
zeroed. -/
theorem C3_halfopen_behavior_witness :
    ((execTrace {} 100 (Except.ok (ε := ErrorInfo) ())
        ⟨.OPEN, 5, 0, 3, 100⟩ 3).state = .CLOSED) ∧
    ((execTrace {} 100 (Except.ok (ε := ErrorInfo) ())
        ⟨.OPEN, 5, 0, 3, 100⟩ 3).successCount = 0) ∧
    ((execTrace {} 100 (Except.ok (ε := ErrorInfo) ())
        ⟨.OPEN, 5, 0, 3, 100⟩ 3).failureCount = 0) :=
  ((C3_halfopen_behavior {} (by decide)).2.2.2 100 ⟨.OPEN, 5, 0, 3, 100⟩ rfl
    (by decide)).2

/-! Helper lemmas about the retry loop. -/

/-- A successful attempt returns at once. -/
lemma retryGo_ok (config : RetryConfig) (op : Nat → Except ErrorInfo α)
    (rand : Nat → ℚ) (attempt remaining : Nat) (v : α)
    (h : op attempt = .ok v) :
    retryGo config op rand attempt remaining = ⟨.ok v, 1, []⟩ := by
  rw [retryGo, h]

/-- A client error or a breaker-open message stops the loop at once, the
error rethrown as-is. -/
lemma retryGo_stop (config : RetryConfig) (op : Nat → Except ErrorInfo α)
    (rand : Nat → ℚ) (attempt remaining : Nat) (e : ErrorInfo)
    (h : op attempt = .error e)
    (hstop : isClientError e = true ∨ isOpenSignal e = true) :
    retryGo config op rand attempt remaining = ⟨.error e, 1, []⟩ := by
  rw [retryGo, h]
  cases hcl : isClientError e
  · cases hstop with
    | inl h2 => rw [hcl] at h2; cases h2
    | inr h2 => simp [hcl, h2]
  · simp [hcl]

/-- A retryable failure on the last allowed iteration is rethrown as the
last observed error. -/
lemma retryGo_last (config : RetryConfig) (op : Nat → Except ErrorInfo α)
    (rand : Nat → ℚ) (attempt : Nat) (e : ErrorInfo)
    (h : op attempt = .error e) (hcl : isClientError e = false)
    (hop : isOpenSignal e = false) :
    retryGo config op rand attempt 0 = ⟨.error e, 1, []⟩ := by
  rw [retryGo, h]
  simp [hcl, hop]

/-- A retryable failure with iterations remaining sleeps the jittered
backoff delay and retries at the next attempt index. -/
lemma retryGo_retry (config : RetryConfig) (op : Nat → Except ErrorInfo α)
    (rand : Nat → ℚ) (attempt r : Nat) (e : ErrorInfo)
    (h : op attempt = .error e) (hcl : isClientError e = false)
    (hop : isOpenSignal e = false) :
    retryGo config op rand attempt (r + 1) =
      ⟨(retryGo config op rand (attempt + 1) r).result,
       (retryGo config op rand (attempt + 1) r).attempts + 1,
       jitteredDelay config attempt (rand attempt)
         :: (retryGo config op rand (attempt + 1) r).delays⟩ := by
  rw [retryGo, h]
  simp [hcl, hop]

/-- The retry loop makes at most `remaining + 1` attempts. -/
lemma retryGo_attempts_le (config : RetryConfig) (op : Nat → Except ErrorInfo α)
    (rand : Nat → ℚ) :
    ∀ remaining attempt, (retryGo config op rand attempt remaining).attempts
      ≤ remaining + 1 := by
  intro remaining
  induction remaining with
  | zero =>
    intro attempt
    cases hop : op attempt with
    | ok v => rw [retryGo_ok config op rand attempt 0 v hop]
    | error e =>
      by_cases hcl : isClientError e = true
      · rw [retryGo_stop config op rand attempt 0 e hop (Or.inl hcl)]
      · by_cases hop2 : isOpenSignal e = true
        · rw [retryGo_stop config op rand attempt 0 e hop (Or.inr hop2)]
        · rw [retryGo_last config op rand attempt e hop
            (Bool.not_eq_true _ ▸ hcl) (Bool.not_eq_true _ ▸ hop2)]
  | succ r ih =>
    intro attempt
    cases hop : op attempt with
    | ok v =>
      rw [retryGo_ok config op rand attempt (r + 1) v hop]
      show 1 ≤ r + 1 + 1
      omega
    | error e =>
      by_cases hcl : isClientError e = true
      · rw [retryGo_stop config op rand attempt (r + 1) e hop (Or.inl hcl)]
        show 1 ≤ r + 1 + 1
        omega
      · by_cases hop2 : isOpenSignal e = true
        · rw [retryGo_stop config op rand attempt (r + 1) e hop (Or.inr hop2)]
          show 1 ≤ r + 1 + 1
          omega
        · rw [retryGo_retry config op rand attempt r e hop
            (Bool.not_eq_true _ ▸ hcl) (Bool.not_eq_true _ ▸ hop2)]
          have := ih (attempt + 1)
          show (retryGo config op rand (attempt + 1) r).attempts + 1 ≤ r + 1 + 1
          omega

/-- When every attempt in range fails with a retryable error, the loop
exhausts all iterations: the last error is rethrown and one jittered
delay is slept before each retry. -/
lemma retryGo_all_fail (config : RetryConfig) (op : Nat → Except ErrorInfo α)
    (rand : Nat → ℚ) (err : Nat → ErrorInfo) :
    ∀ remaining attempt,
      (∀ i, attempt ≤ i → i ≤ attempt + remaining →
        op i = .error (err i) ∧ isClientError (err i) = false ∧
        isOpenSignal (err i) = false) →
      retryGo config op rand attempt remaining =
        ⟨.error (err (attempt + remaining)), remaining + 1,
          (List.range remaining).map
            (fun j => jitteredDelay config (attempt + j) (rand (attempt + j)))⟩ := by
  intro remaining
  induction remaining with
  | zero =>
    intro attempt h
    obtain ⟨h1, h2, h3⟩ := h attempt le_rfl (by omega)
    rw [retryGo_last config op rand attempt _ h1 h2 h3]
    simp
  | succ r ih =>
    intro attempt h
    obtain ⟨h1, h2, h3⟩ := h attempt le_rfl (by omega)
    rw [retryGo_retry config op rand attempt r _ h1 h2 h3]
    rw [ih (attempt + 1) (fun i hi1 hi2 => h i (by omega) (by omega))]
    have harith : attempt + 1 + r = attempt + (r + 1) := by omega
    rw [harith]
    congr 1
    rw [List.range_succ_eq_map, List.map_cons, List.map_map]
    congr 1
    apply List.map_congr_left
    intro j _
    have hja : attempt + 1 + j = attempt + Nat.succ j := by omega
    simp [Function.comp, hja]

/-- C4: the retry engine makes at most `maxRetries + 1` attempts; a first
attempt failing with a client error or the breaker-open signal is the
only attempt and its error is propagated as-is; when every attempt fails
with a retryable error, exactly `maxRetries + 1` attempts are made and
the last error is propagated unchanged. -/
theorem C4_retry_attempt_counts (config : RetryConfig)
    (op : Nat → Except ErrorInfo Unit) (rand : Nat → ℚ) :
    ((retryWithBackoff config op rand).attempts ≤ config.maxRetries + 1) ∧
    (∀ e, op 0 = .error e → (isClientError e = true ∨ isOpenSignal e = true) →
      (retryWithBackoff config op rand).attempts = 1 ∧
      (retryWithBackoff config op rand).result = .error e) ∧
    (∀ err : Nat → ErrorInfo,
      (∀ i, i ≤ config.maxRetries →
        op i = .error (err i) ∧ isClientError (err i) = false ∧
        isOpenSignal (err i) = false) →
      (retryWithBackoff config op rand).attempts = config.maxRetries + 1 ∧
      (retryWithBackoff config op rand).result = .error (err config.maxRetries)) := by
  refine ⟨retryGo_attempts_le config op rand config.maxRetries 0, ?_, ?_⟩
  · intro e h1 h2
    rw [retryWithBackoff, retryGo_stop config op rand 0 config.maxRetries e h1 h2]
    exact ⟨rfl, rfl⟩
  · intro err h
    rw [retryWithBackoff, retryGo_all_fail config op rand err config.maxRetries 0
      (fun i hi1 hi2 => h i (by omega))]
    exact ⟨rfl, by simp⟩

/-- Witness for C4: with `maxRetries = 1` and an operation failing every
time with a retryable error, exactly 2 attempts are made and the error
is propagated. -/
theorem C4_retry_attempt_counts_witness :
    (retryWithBackoff ⟨1, 100, 1000, 2, 0⟩
      (fun _ => .error (α := Unit) ⟨"ECONNREFUSED", none⟩)
      (fun _ => 0)).attempts = 1 + 1 ∧
    (retryWithBackoff ⟨1, 100, 1000, 2, 0⟩
      (fun _ => .error (α := Unit) ⟨"ECONNREFUSED", none⟩)
      (fun _ => 0)).result = .error ⟨"ECONNREFUSED", none⟩ :=
  (C4_retry_attempt_counts ⟨1, 100, 1000, 2, 0⟩
      (fun _ => .error (α := Unit) ⟨"ECONNREFUSED", none⟩) (fun _ => 0)).2.2
    (fun _ => ⟨"ECONNREFUSED", none⟩)
    (fun _ _ => ⟨rfl, rfl, rfl⟩)

/-- The `RetryConfig` of spec property P5: default values with jitter
disabled. -/
def p5Config : RetryConfig :=
  { maxRetries := 3, initialDelay := 1000, maxDelay := 10000,
    backoffMultiplier := 2, jitterFactor := 0 }

/-- With jitter disabled the slept delay is exactly the capped base
delay. -/
lemma jitter_zero (config : RetryConfig) (hj : config.jitterFactor = 0)
    (hinit : 0 ≤ config.initialDelay) (hmult : 0 ≤ config.backoffMultiplier)
    (hmax : 0 ≤ config.maxDelay) (attempt : Nat) (u : ℚ) :
    jitteredDelay config attempt u = baseDelay config attempt := by
  have hb : 0 ≤ baseDelay config attempt :=
    le_min (mul_nonneg hinit (pow_nonneg hmult attempt)) hmax
  unfold jitteredDelay
  rw [hj]
  simp [mul_zero, zero_mul, add_zero, max_eq_right hb]

/-- C5: with the P5 configuration (jitter disabled) an always-failing
retryable operation sleeps exactly 1000ms, 2000ms, 4000ms and makes 4
attempts; and with `jitterFactor = 0.3` every computed delay lies in
`[baseDelay * 0.7, baseDelay * 1.3]` and is never negative, for any
uniform draw in `[0, 1]`. -/
theorem C5_backoff_delay_values :
    (∀ (op : Nat → Except ErrorInfo Unit) (rand : Nat → ℚ) (err : Nat → ErrorInfo),
      (∀ i, i ≤ 3 → op i = .error (err i) ∧ isClientError (err i) = false ∧
        isOpenSignal (err i) = false) →
      (retryWithBackoff p5Config op rand).delays = [1000, 2000, 4000] ∧
      (retryWithBackoff p5Config op rand).attempts = 4) ∧
    (∀ (config : RetryConfig) (attempt : Nat) (r : ℚ),
      config.jitterFactor = 3/10 → 0 ≤ config.initialDelay →
      0 ≤ config.backoffMultiplier → 0 ≤ config.maxDelay →
      0 ≤ r → r ≤ 1 →
      baseDelay config attempt * (7/10) ≤ jitteredDelay config attempt r ∧
      jitteredDelay config attempt r ≤ baseDelay config attempt * (13/10) ∧
      0 ≤ jitteredDelay config attempt r) := by
  constructor
  · intro op rand err h
    rw [retryWithBackoff, show p5Config.maxRetries = 3 from rfl,
      retryGo_all_fail p5Config op rand err 3 0 (fun i h1 h2 => h i (by omega))]
    constructor
    · show (List.range 3).map
        (fun j => jitteredDelay p5Config (0 + j) (rand (0 + j))) = [1000, 2000, 4000]
      have hr : List.range 3 = [0, 1, 2] := rfl
      rw [hr]
      simp only [List.map]
      rw [jitter_zero p5Config rfl (by norm_num [p5Config]) (by norm_num [p5Config])
            (by norm_num [p5Config]) (0 + 0) (rand (0 + 0)),
          jitter_zero p5Config rfl (by norm_num [p5Config]) (by norm_num [p5Config])
            (by norm_num [p5Config]) (0 + 1) (rand (0 + 1)),
          jitter_zero p5Config rfl (by norm_num [p5Config]) (by norm_num [p5Config])
            (by norm_num [p5Config]) (0 + 2) (rand (0 + 2))]
      norm_num [baseDelay, p5Config, min_def]
    · rfl
  · intro config attempt r hj hinit hmult hmax hr0 hr1
    set b := baseDelay config attempt with hbdef
    have hb : 0 ≤ b :=
      le_min (mul_nonneg hinit (pow_nonneg hmult attempt)) hmax
    have hinner_lo : b * (7/10) ≤ b + b * config.jitterFactor * (r * 2 - 1) := by
      rw [hj]
      nlinarith [mul_nonneg hb hr0]
    have hinner_hi : b + b * config.jitterFactor * (r * 2 - 1) ≤ b * (13/10) := by
      rw [hj]
      nlinarith [mul_nonneg hb (sub_nonneg.mpr hr1)]
    have hinner_nonneg : 0 ≤ b + b * config.jitterFactor * (r * 2 - 1) := by
      nlinarith [hinner_lo, hb]
    have hjd : jitteredDelay config attempt r
        = b + b * config.jitterFactor * (r * 2 - 1) := by
      unfold jitteredDelay
      rw [← hbdef]
      exact max_eq_right hinner_nonneg
    rw [hjd]
    exact ⟨hinner_lo, hinner_hi, hinner_nonneg⟩

/-- Witness for C5: a concrete always-timing-out operation under the P5
configuration sleeps 1000ms, 2000ms, 4000ms and makes 4 attempts. -/
theorem C5_backoff_delay_values_witness :
    (retryWithBackoff p5Config
      (fun _ => .error (α := Unit) ⟨"timeout of 5000ms exceeded", none⟩)
      (fun _ => 1/2)).delays = [1000, 2000, 4000] ∧
    (retryWithBackoff p5Config
      (fun _ => .error (α := Unit) ⟨"timeout of 5000ms exceeded", none⟩)
      (fun _ => 1/2)).attempts = 4 :=
  C5_backoff_delay_values.1
    (fun _ => .error (α := Unit) ⟨"timeout of 5000ms exceeded", none⟩)
    (fun _ => 1/2)
    (fun _ => ⟨"timeout of 5000ms exceeded", none⟩)
    (fun _ _ => ⟨rfl, rfl, rfl⟩)

/-- A concrete axios-style downstream 404 error. -/
def err404 : ErrorInfo :=
  { message := "Request failed with status code 404",
    response := some { status := 404, data := "user not found" } }

/-- C8: a client-error failure is not retried but is still rethrown to
the breaker and increments `failureCount` by exactly one, the same
increment any other admitted failure produces. -/
theorem C8_client_error_counts (cfg : BreakerConfig) (rcfg : RetryConfig)
    (now : Nat) (cb : CircuitBreaker) (rand : Nat → ℚ) (e : ErrorInfo)
    (hcb : cb.state = .CLOSED) (hcl : isClientError e = true) :
    ((retryWithBackoff rcfg (fun _ => .error (α := Unit) e) rand).attempts = 1) ∧
    ((runPipeline cfg rcfg now cb (fun _ => .error (α := Unit) e)
        rand).breaker.failureCount = cb.failureCount + 1) ∧
    (∀ e' : ErrorInfo,
      (CircuitBreaker.execute cfg now cb
          (.error (α := Unit) e')).breaker.failureCount = cb.failureCount + 1) := by
  have hretry : retryWithBackoff rcfg (fun _ => .error (α := Unit) e) rand
      = ⟨.error e, 1, []⟩ := by
    rw [retryWithBackoff]
    exact retryGo_stop rcfg _ rand 0 rcfg.maxRetries e rfl (Or.inl hcl)
  have hnotopen : ¬ cb.state = .OPEN := by rw [hcb]; intro hh; cases hh
  refine ⟨by rw [hretry], ?_, ?_⟩
  · rw [runPipeline, hretry,
      show (⟨Except.error e, 1, ([] : List ℚ)⟩ : RetryOutcome Unit).result
        = Except.error e from rfl,
      execute_not_open cfg now cb _ hnotopen]
    simp only [CircuitBreaker.runOp]
    exact (onFailure_counts cfg now cb).1
  · intro e'
    rw [execute_not_open cfg now cb _ hnotopen]
    simp only [CircuitBreaker.runOp]
    exact (onFailure_counts cfg now cb).1

/-- Witness for C8: a downstream 404 through the default pipeline makes
one attempt and bumps the initial breaker to one failure. -/
theorem C8_client_error_counts_witness :
    ((retryWithBackoff defaultRetryConfig (fun _ => .error (α := Unit) err404)
        (fun _ => 0)).attempts = 1) ∧
    ((runPipeline {} defaultRetryConfig 0 .init (fun _ => .error (α := Unit) err404)
        (fun _ => 0)).breaker.failureCount = 0 + 1) ∧
    (∀ e' : ErrorInfo,
      (CircuitBreaker.execute {} 0 .init
          (.error (α := Unit) e')).breaker.failureCount = 0 + 1) :=
  C8_client_error_counts {} defaultRetryConfig 0 .init (fun _ => 0) err404
    rfl (by decide)

/-- C7 counterexample: fed a downstream 404 carrying its original
response, the list-users route answers 500, not the downstream status
404, so the facade does not forward the downstream response verbatim on
every inbound route. -/
theorem C7_users_route_counterexample :
    ((usersHandler {} defaultRetryConfig 0 .init (fun _ => .error err404)
        (fun _ => 0)).2.status = 500) ∧
    ((usersHandler {} defaultRetryConfig 0 .init (fun _ => .error err404)
        (fun _ => 0)).2.status ≠ 404) := by
  decide

/-- C7 amended: a pipeline failure carrying a downstream response (with a
client-error status and no breaker-open text) is never retried; the
register route forwards the downstream status and body verbatim, while
the list-users route answers 500 with a diagnostic body instead. -/
theorem C7_downstream_forwarding (cfg : BreakerConfig) (rcfg : RetryConfig)
    (now : Nat) (cb : CircuitBreaker) (rand : Nat → ℚ) (msg d : String) (s : Nat)
    (hcb : cb.state = .CLOSED) (hs1 : 400 ≤ s) (hs2 : s < 500)
    (hmsg : isOpenSignal ⟨msg, some ⟨s, d⟩⟩ = false) :
    ((retryWithBackoff rcfg (fun _ => .error (α := String) ⟨msg, some ⟨s, d⟩⟩)
        rand).attempts = 1) ∧
    ((registerHandler cfg rcfg now cb (fun _ => .error ⟨msg, some ⟨s, d⟩⟩) rand).2
        = ⟨s, .downstreamBody d⟩) ∧
    ((usersHandler cfg rcfg now cb (fun _ => .error ⟨msg, some ⟨s, d⟩⟩) rand).2
        = ⟨500, .failedFetch msg⟩) := by
  have hcl : isClientError ⟨msg, some ⟨s, d⟩⟩ = true := by
    simp [isClientError]
    omega
  have hretry : retryWithBackoff rcfg
      (fun _ => .error (α := String) ⟨msg, some ⟨s, d⟩⟩) rand
      = ⟨.error ⟨msg, some ⟨s, d⟩⟩, 1, []⟩ := by
    rw [retryWithBackoff]
    exact retryGo_stop rcfg _ rand 0 rcfg.maxRetries _ rfl (Or.inl hcl)
  have hnotopen : ¬ cb.state = .OPEN := by rw [hcb]; intro hh; cases hh
  have hpipe : runPipeline cfg rcfg now cb
      (fun _ => .error (α := String) ⟨msg, some ⟨s, d⟩⟩) rand
      = ⟨cb.onFailure cfg now, .error ⟨msg, some ⟨s, d⟩⟩, true⟩ := by
    rw [runPipeline, hretry,
      show (⟨Except.error ⟨msg, some ⟨s, d⟩⟩, 1, ([] : List ℚ)⟩
          : RetryOutcome String).result = Except.error ⟨msg, some ⟨s, d⟩⟩ from rfl,
      execute_not_open cfg now cb _ hnotopen]
    rfl
  refine ⟨by rw [hretry], ?_, ?_⟩
  · simp only [registerHandler]
    rw [hpipe]
    simp [hmsg]
  · simp only [usersHandler]
    rw [hpipe]
    simp [hmsg]

/-- Witness for C7: the concrete downstream 404 is forwarded verbatim by
the register route and mapped to 500 by the list-users route. -/
theorem C7_downstream_forwarding_witness :
    ((retryWithBackoff defaultRetryConfig (fun _ => .error (α := String)
        ⟨"Request failed with status code 404", some ⟨404, "user not found"⟩⟩)
        (fun _ => 0)).attempts = 1) ∧
    ((registerHandler {} defaultRetryConfig 0 .init (fun _ => .error
        ⟨"Request failed with status code 404", some ⟨404, "user not found"⟩⟩)
        (fun _ => 0)).2 = ⟨404, .downstreamBody "user not found"⟩) ∧
    ((usersHandler {} defaultRetryConfig 0 .init (fun _ => .error
        ⟨"Request failed with status code 404", some ⟨404, "user not found"⟩⟩)
        (fun _ => 0)).2 = ⟨500, .failedFetch "Request failed with status code 404"⟩) :=
  C7_downstream_forwarding {} defaultRetryConfig 0 .init (fun _ => 0)
    "Request failed with status code 404" "user not found" 404
    rfl (by decide) (by decide) (by decide)

/-- C10: any error whose message contains the text "Circuit breaker is
OPEN" — also a genuine downstream error that happens to contain it — is
attempted exactly once and rethrown by the retry engine, and both route
handlers map it to a 503 service-unavailable response carrying the
breaker status, instead of treating it as a downstream failure. -/
theorem C10_open_signal_substring (cfg : BreakerConfig) (rcfg : RetryConfig)
    (now : Nat) (cb : CircuitBreaker) (rand : Nat → ℚ) (e : ErrorInfo)
    (hmsg : isOpenSignal e = true) (hcb : cb.state = .CLOSED) :
    ((retryWithBackoff rcfg (fun _ => .error (α := String) e) rand).attempts = 1) ∧
    ((retryWithBackoff rcfg (fun _ => .error (α := String) e) rand).result
        = .error e) ∧
    ((registerHandler cfg rcfg now cb (fun _ => .error e) rand).2
        = ⟨503, .serviceUnavailable
            "Service temporarily unavailable - circuit breaker is open"
            ((cb.onFailure cfg now).getState)⟩) ∧
    ((usersHandler cfg rcfg now cb (fun _ => .error e) rand).2
        = ⟨503, .serviceUnavailable "Service temporarily unavailable"
            ((cb.onFailure cfg now).getState)⟩) := by
  have hretry : retryWithBackoff rcfg (fun _ => .error (α := String) e) rand
      = ⟨.error e, 1, []⟩ := by
    rw [retryWithBackoff]
    exact retryGo_stop rcfg _ rand 0 rcfg.maxRetries e rfl (Or.inr hmsg)
  have hnotopen : ¬ cb.state = .OPEN := by rw [hcb]; intro hh; cases hh
  have hpipe : runPipeline cfg rcfg now cb (fun _ => .error (α := String) e) rand
      = ⟨cb.onFailure cfg now, .error e, true⟩ := by
    rw [runPipeline, hretry,
      show (⟨Except.error e, 1, ([] : List ℚ)⟩ : RetryOutcome String).result
        = Except.error e from rfl,
      execute_not_open cfg now cb _ hnotopen]
    rfl
  refine ⟨by rw [hretry], by rw [hretry], ?_, ?_⟩
  · simp only [registerHandler]
    rw [hpipe]
    simp [hmsg]
  · simp only [usersHandler]
    rw [hpipe]
    simp [hmsg]

/-- Witness for C10: a genuine downstream 500 whose message happens to
contain the breaker-open text is attempted once and mapped to 503 by both
routes. -/
theorem C10_open_signal_substring_witness :
    ((retryWithBackoff defaultRetryConfig (fun _ => .error (α := String)
        ⟨"upstream said: Circuit breaker is OPEN today", some ⟨500, "oops"⟩⟩)
        (fun _ => 0)).attempts = 1) ∧
    ((retryWithBackoff defaultRetryConfig (fun _ => .error (α := String)
        ⟨"upstream said: Circuit breaker is OPEN today", some ⟨500, "oops"⟩⟩)
        (fun _ => 0)).result
        = .error ⟨"upstream said: Circuit breaker is OPEN today", some ⟨500, "oops"⟩⟩) ∧
    ((registerHandler {} defaultRetryConfig 7 .init (fun _ => .error
        ⟨"upstream said: Circuit breaker is OPEN today", some ⟨500, "oops"⟩⟩)
        (fun _ => 0)).2
        = ⟨503, .serviceUnavailable
            "Service temporarily unavailable - circuit breaker is open"
            ((CircuitBreaker.init.onFailure {} 7).getState)⟩) ∧
    ((usersHandler {} defaultRetryConfig 7 .init (fun _ => .error
        ⟨"upstream said: Circuit breaker is OPEN today", some ⟨500, "oops"⟩⟩)
        (fun _ => 0)).2
        = ⟨503, .serviceUnavailable "Service temporarily unavailable"
            ((CircuitBreaker.init.onFailure {} 7).getState)⟩) :=
  C10_open_signal_substring {} defaultRetryConfig 7 .init (fun _ => 0)
    ⟨"upstream said: Circuit breaker is OPEN today", some ⟨500, "oops"⟩⟩
    (by decide) rfl

end Resilience
